import Mathlib

/-!
Persona service (`main.go`): identity-code parsing, creation, lookup and paging.

A shallow embedding of the request-independent logic of `main.go`.

* A Go `string` is a sequence of bytes: `GoString := List UInt8`.
* A Go `int` is a 64-bit signed integer; it is modelled by `Int`, and `wrap64`
  is applied where the source arithmetic can leave the 64-bit range.
* A run-time panic (index or slice bounds out of range) is the `Except.error`
  side of `Exec`; a normal return is `Except.ok`.
* The wall-clock year `time.Now().Year()` and the random source `rand.Intn`
  are parameters.
* The MongoDB collection is a list of `Persona` in storage order; `FindOne`,
  `Find` with skip/limit and `InsertOne` act on that list.
-/

namespace PersonaService

/-! ## Go strings and integers -/

/-- A Go string: an immutable sequence of bytes. -/
abbrev GoString := List UInt8

/-- The bytes (UTF-8) of a string literal of the source. -/
def utf8 (s : String) : GoString :=
  s.data.flatMap String.utf8EncodeChar

/-- Two's-complement reduction of an integer to the 64-bit `int` range. -/
def wrap64 (x : Int) : Int :=
  (x + 2 ^ 63) % 2 ^ 64 - 2 ^ 63

/-- Run-time panics of the Go runtime that the embedded code can raise. -/
inductive RuntimePanic where
  | sliceBounds (hi len : Nat)
  | indexOutOfRange (i len : Nat)
  deriving DecidableEq, Repr

deriving instance DecidableEq for Except

/-- A computation that either returns a value or panics. -/
abbrev Exec (α : Type) := Except RuntimePanic α

/-- Slice expression `s[lo:hi]` on a string (with constant `lo ≤ hi`). -/
def slice (s : GoString) (lo hi : Nat) : Exec GoString :=
  if hi ≤ s.length then .ok ((s.drop lo).take (hi - lo))
  else .error (.sliceBounds hi s.length)

/-- Index expression `s[i]` on a string. -/
def index (s : GoString) (i : Nat) : Exec UInt8 :=
  match s.get? i with
  | some b => .ok b
  | none => .error (.indexOutOfRange i s.length)

/-! ## `strconv.Atoi` and `strconv.Itoa` (Go standard library) -/

/-- The two error kinds of `strconv`. -/
inductive NumError where
  | ErrSyntax
  | ErrRange
  deriving DecidableEq, Repr

/-- Fast-path loop of `Atoi`: `ch -= 48; if ch > 9 then syntax error;
n = n*10 + int(ch)`. -/
def atoiDigits : Nat → GoString → Option Nat
  | n, [] => some n
  | n, ch :: rest =>
    let d : UInt8 := ch - 48
    if d > 9 then none else atoiDigits (n * 10 + d.toNat) rest

/-- Digit loop of `ParseUint(s, 10, 64)`: a byte that is not a decimal digit
is a syntax error, a value beyond `2^64 - 1` is a range error; whichever is
met first, reading left to right, decides. -/
def parseUintLoop : Nat → GoString → Except NumError Nat
  | n, [] => .ok n
  | n, c :: rest =>
    if 48 ≤ c ∧ c ≤ 57 then
      let d : Nat := (c - 48).toNat
      if n ≥ (2 ^ 64 - 1) / 10 + 1 then .error .ErrRange
      else if n * 10 + d > 2 ^ 64 - 1 then .error .ErrRange
      else parseUintLoop (n * 10 + d) rest
    else .error .ErrSyntax

/-- Value and error of `strconv.ParseUint(s, 10, 64)`. -/
def ParseUint (s : GoString) : Nat × Option NumError :=
  if s = [] then (0, some .ErrSyntax)
  else
    match parseUintLoop 0 s with
    | .ok n => (n, none)
    | .error .ErrSyntax => (0, some .ErrSyntax)
    | .error .ErrRange => (2 ^ 64 - 1, some .ErrRange)

/-- Value and error of `strconv.ParseInt(s, 10, 0)` with 64-bit `int`. -/
def ParseInt (s : GoString) : Int × Option NumError :=
  if s = [] then (0, some .ErrSyntax)
  else
    let neg : Bool := s.head? = some 45
    let s1 : GoString := if s.head? = some 43 ∨ s.head? = some 45 then s.drop 1 else s
    match ParseUint s1 with
    | (_, some .ErrSyntax) => (0, some .ErrSyntax)
    | (un, _) =>
      if ¬ neg ∧ un ≥ 2 ^ 63 then (2 ^ 63 - 1, some .ErrRange)
      else if neg ∧ un > 2 ^ 63 then (-(2 ^ 63), some .ErrRange)
      else
        let n : Int := wrap64 un
        (if neg then wrap64 (-n) else n, none)

/-- Value and error of `strconv.Atoi(s)` with 64-bit `int`: the fast path for
`0 < len(s) < 19`, `ParseInt` otherwise. -/
def Atoi (s : GoString) : Int × Option NumError :=
  if 0 < s.length ∧ s.length < 19 then
    let signed : Bool := s.head? = some 45 ∨ s.head? = some 43
    let s1 : GoString := if signed then s.drop 1 else s
    if signed ∧ s1.length < 1 then (0, some .ErrSyntax)
    else
      match atoiDigits 0 s1 with
      | none => (0, some .ErrSyntax)
      | some n => (if s.head? = some 45 then -(n : Int) else (n : Int), none)
  else ParseInt s

/-- Decimal digits of `n`, most significant first, prepended to `acc`;
`fuel` bounds the number of digits produced. -/
def itoaDigits : Nat → Nat → GoString → GoString
  | 0, _, acc => acc
  | fuel + 1, n, acc =>
    let acc1 : GoString := UInt8.ofNat (48 + n % 10) :: acc
    if n / 10 = 0 then acc1 else itoaDigits fuel (n / 10) acc1

/-- Result of `strconv.Itoa(i)`: the decimal rendering, with a leading `-`
for a negative value. -/
def Itoa (i : Int) : GoString :=
  if i < 0 then 45 :: itoaDigits (i.natAbs + 1) i.natAbs []
  else itoaDigits (i.natAbs + 1) i.natAbs []

/-! ## The data model -/

/-- The `Persona` struct. -/
structure Persona where
  Nombres : GoString
  ApellidoPaterno : GoString
  ApellidoMaterno : GoString
  CURP : GoString
  Edad : Int
  FechaNacimiento : GoString
  Genero : GoString
  Matricula : Int
  deriving DecidableEq, Repr

/-! ## `obtenerInformacionCURP` and `generarCodigoAleatorio` -/

/-- The local variable `birthYear` of `obtenerInformacionCURP` after the
century adjustment, from the two-byte substring `year` and the wall-clock
year. The errors of `Atoi` are discarded by the source. -/
def birthYearOf (currentYear : Int) (year : GoString) : Int :=
  let birthYear : Int := (Atoi (utf8 "20" ++ year)).1
  if currentYear - 2000 < birthYear then (Atoi (utf8 "19" ++ year)).1
  else birthYear

/-- The gender text chosen from the sex marker byte. -/
def genderOf (sexChar : UInt8) : GoString :=
  if sexChar = 72 then utf8 "Hombre"
  else if sexChar = 77 then utf8 "Mujer"
  else utf8 "Desconocido"

/-- The function `obtenerInformacionCURP`: returns `(age, birthDate, gender)`,
or panics when the code is too short for the positional indexing. -/
def obtenerInformacionCURP (currentYear : Int) (curp : GoString) :
    Exec (Int × GoString × GoString) := do
  let year ← slice curp 4 6
  let month ← slice curp 6 8
  let day ← slice curp 8 10
  let sexChar ← index curp 10
  let birthYear : Int := birthYearOf currentYear year
  let birthDate : GoString := Itoa birthYear ++ utf8 "-" ++ month ++ utf8 "-" ++ day
  let age : Int := currentYear - birthYear
  let gender : GoString := genderOf sexChar
  return (age, birthDate, gender)

/-- The function `generarCodigoAleatorio`. The parameter `intn` is the random
source: `intn n` is the value returned by `rand.Intn(n)`. -/
def generarCodigoAleatorio (intn : Int → Int) : Int :=
  let min : Int := 1000000000
  let max : Int := 9999999999
  wrap64 (intn (wrap64 (wrap64 (max - min) + 1)) + min)

/-! ## The collection `personas` of the document store -/

/-- Error values that reach the embedded code: `mongo.ErrNoDocuments`, an
error built by `fmt.Errorf` with its message, and the rejection of a negative
skip by the server. The text of a driver or server error is fixed outside
this repository and is not modelled. -/
inductive GoError where
  | ErrNoDocuments
  | errorf (msg : GoString)
  | skipRejected (skip : Int)
  deriving DecidableEq, Repr

/-- The `bson.M` filters built by the source. -/
inductive Filter where
  | all
  | curp (c : GoString)
  | matricula (m : Int)
  deriving DecidableEq, Repr

/-- Whether a stored record satisfies a filter. -/
def Filter.holds : Filter → Persona → Bool
  | .all, _ => true
  | .curp c, p => decide (p.CURP = c)
  | .matricula m, p => decide (p.Matricula = m)

/-- `collection.FindOne(ctx, filter).Decode(&persona)`: the first stored
record that satisfies the filter, or `mongo.ErrNoDocuments`. -/
def FindOne (docs : List Persona) (filter : Filter) : Except GoError Persona :=
  match docs.find? filter.holds with
  | some p => .ok p
  | none => .error .ErrNoDocuments

/-- `collection.Find(ctx, filter, SetSkip(skip).SetLimit(limit))` read to the
end of the cursor: the matching records in storage order, without the first
`skip` and cut to `limit` records. The server rejects a negative skip; a
limit of zero is no limit and a negative limit counts by its absolute
value. -/
def Find (docs : List Persona) (filter : Filter) (skip limit : Int) :
    Except GoError (List Persona) :=
  if skip < 0 then .error (.skipRejected skip)
  else
    let rest : List Persona := (docs.filter filter.holds).drop skip.toNat
    if limit = 0 then .ok rest else .ok (rest.take limit.natAbs)

/-- `collection.InsertOne(ctx, p)`: the record is added after the stored
ones. -/
def InsertOne (docs : List Persona) (p : Persona) : List Persona × Option GoError :=
  (docs ++ [p], none)

/-! ## `guardarPersona` -/

/-- The function `guardarPersona` on the collection `docs`: the returned
`error` (or the panic that ends the call) and the collection afterwards. -/
def guardarPersona (currentYear : Int) (intn : Int → Int) (docs : List Persona)
    (p : Persona) : Exec (Option GoError) × List Persona :=
  let filter : Filter := .curp p.CURP
  match FindOne docs filter with
  | .ok _ =>
    (.ok (some (.errorf (utf8 "La CURP " ++ p.CURP ++ utf8 " ya existe en la base de datos"))),
      docs)
  | .error err =>
    if err ≠ .ErrNoDocuments then (.ok (some err), docs)
    else
      match obtenerInformacionCURP currentYear p.CURP with
      | .error pn => (.error pn, docs)
      | .ok (edad, fechaNacimiento, genero) =>
        let p1 : Persona :=
          { p with Edad := edad, FechaNacimiento := fechaNacimiento, Genero := genero }
        let p2 : Persona := { p1 with Matricula := generarCodigoAleatorio intn }
        let (docs1, err1) := InsertOne docs p2
        (.ok err1, docs1)

/-! ## The `GET` handlers -/

/-- What a handler writes: JSON encoding is kept abstract, the body is the
encoded value. -/
inductive Body where
  | text (msg : GoString)
  | errorText (err : GoError)
  | persona (p : Persona)
  | personas (ps : List Persona)
  deriving DecidableEq, Repr

/-- Status code and body of an HTTP response. -/
structure Response where
  status : Nat
  body : Body
  deriving DecidableEq, Repr

/-- `http.Error(w, msg, code)`: the message and a newline as plain text. -/
def httpError (msg : GoString) (code : Nat) : Response :=
  ⟨code, .text (msg ++ [10])⟩

/-- `http.Error(w, err.Error(), code)` for an error value handed up by the
driver: the body is the text of `err`, whatever the driver makes it. -/
def httpErrorOf (err : GoError) (code : Nat) : Response :=
  ⟨code, .errorText err⟩

/-- The function `getPersonasHandler`; `pageQuery` and `perPageQuery` are the
values of `r.URL.Query().Get`, empty when the parameter is absent. -/
def getPersonasHandler (method : GoString) (docs : List Persona)
    (pageQuery perPageQuery : GoString) : Response :=
  if method ≠ utf8 "GET" then httpError (utf8 "Método no permitido") 405
  else
    let page : Int := (Atoi pageQuery).1
    let perPage : Int := (Atoi perPageQuery).1
    let page : Int := if page < 1 then 1 else page
    let perPage : Int := if perPage < 1 then 10 else perPage
    let skip : Int := wrap64 (wrap64 (page - 1) * perPage)
    match Find docs .all skip perPage with
    | .error err => httpErrorOf err 500
    | .ok personas => ⟨200, .personas personas⟩

/-- The filter chosen by `getPersonaHandler` from the parsed `matricula` and
the `curp` query value; `none` when neither is supplied. -/
def personaFilter (matriculaQuery : Int) (curpQuery : GoString) : Option Filter :=
  if matriculaQuery ≠ 0 then some (.matricula matriculaQuery)
  else if curpQuery ≠ [] then some (.curp curpQuery)
  else none

/-- The function `getPersonaHandler`; `matriculaText` and `curpQuery` are the
values of `r.URL.Query().Get`. -/
def getPersonaHandler (method : GoString) (docs : List Persona)
    (matriculaText curpQuery : GoString) : Response :=
  if method ≠ utf8 "GET" then httpError (utf8 "Método no permitido") 405
  else
    let matriculaQuery : Int := (Atoi matriculaText).1
    match personaFilter matriculaQuery curpQuery with
    | none => httpError (utf8 "Debes proporcionar matricula o curp") 400
    | some filter =>
      match FindOne docs filter with
      | .error err =>
        if err = .ErrNoDocuments then httpError (utf8 "No se encontró la persona") 404
        else httpErrorOf err 500
      | .ok persona => ⟨200, .persona persona⟩

/-! ## Specification-side definitions -/

/-- The page the specification describes for `list(page, perPage)`: skip
`(p-1)*n` records and return at most `n`, with `p` and `n` the defaulted
page number and page size. -/
def specPage (docs : List Persona) (page perPage : Int) : List Persona :=
  let p : Int := if page ≥ 1 then page else 1
  let n : Int := if perPage ≥ 1 then perPage else 10
  (docs.drop ((p - 1) * n).toNat).take n.toNat

/-- The number a text of decimal digits denotes. -/
def decimalValue (s : GoString) : Nat :=
  s.foldl (fun acc b => acc * 10 + (b.toNat - 48)) 0

/-- A sample record used in the concrete evaluations. -/
def samplePersona (curp : String) : Persona :=
  ⟨utf8 "Ana", utf8 "Ruiz", utf8 "Luna", utf8 curp, 0, [], [], 0⟩

/-! ## Auxiliary facts -/

theorem byte_digit_le (d : UInt8) (h : ¬ d > 9) : d.toNat ≤ 9 := by
  have h1 : ¬ (9 : UInt8).toNat < d.toNat := h
  simpa using h1

theorem utf8_20 : utf8 "20" = [50, 48] := by decide

theorem utf8_19 : utf8 "19" = [49, 57] := by decide

/-- `Atoi` on `"20"` followed by two bytes. -/
theorem Atoi_20 (a b : UInt8) :
    (Atoi (utf8 "20" ++ [a, b])).1 =
      if 9 < a - 48 ∨ 9 < b - 48 then 0
      else 2000 + ((a - 48).toNat : Int) * 10 + ((b - 48).toNat : Int) := by
  rw [utf8_20]
  simp only [Atoi, List.cons_append, List.nil_append, List.length_cons, List.length_nil,
    List.head?_cons]
  simp [atoiDigits]
  by_cases ha : 9 < a - 48
  · simp [ha]
  · by_cases hb : 9 < b - 48
    · simp [ha, hb]
    · simp [ha, hb, UInt8.size]
      ring

/-- `Atoi` on `"19"` followed by two bytes. -/
theorem Atoi_19 (a b : UInt8) :
    (Atoi (utf8 "19" ++ [a, b])).1 =
      if 9 < a - 48 ∨ 9 < b - 48 then 0
      else 1900 + ((a - 48).toNat : Int) * 10 + ((b - 48).toNat : Int) := by
  rw [utf8_19]
  simp only [Atoi, List.cons_append, List.nil_append, List.length_cons, List.length_nil,
    List.head?_cons]
  simp [atoiDigits]
  by_cases ha : 9 < a - 48
  · simp [ha]
  · by_cases hb : 9 < b - 48
    · simp [ha, hb]
    · simp [ha, hb, UInt8.size]
      ring

/-- What the century adjustment of the source computes. -/
theorem birthYearOf_eq (C : Int) (a b : UInt8) :
    birthYearOf C [a, b] =
      if 9 < a - 48 ∨ 9 < b - 48 then 0
      else if C - 2000 < 2000 + ((a - 48).toNat : Int) * 10 + ((b - 48).toNat : Int) then
        1900 + ((a - 48).toNat : Int) * 10 + ((b - 48).toNat : Int)
      else 2000 + ((a - 48).toNat : Int) * 10 + ((b - 48).toNat : Int) := by
  unfold birthYearOf
  simp only [Atoi_20, Atoi_19]
  split_ifs <;> rfl

theorem birthYearOf_le (C : Int) (hC : 2000 ≤ C) (a b : UInt8) :
    0 ≤ birthYearOf C [a, b] ∧ birthYearOf C [a, b] ≤ C := by
  rw [birthYearOf_eq]
  by_cases h : 9 < a - 48 ∨ 9 < b - 48
  · simp [h]; omega
  · have ha := byte_digit_le (a - 48) (fun h1 => h (Or.inl h1))
    have hb := byte_digit_le (b - 48) (fun h1 => h (Or.inr h1))
    simp only [h, if_false]
    split_ifs <;> omega

theorem cons_of_succ_le (n : Nat) (l : GoString) (h : n + 1 ≤ l.length) :
    ∃ a t, l = a :: t ∧ n ≤ t.length := by
  cases l with
  | nil => simp at h
  | cons a t => exact ⟨a, t, rfl, by simpa using h⟩

/-- A code of at least 11 bytes, spelled out. -/
theorem curp_shape (curp : GoString) (h : 11 ≤ curp.length) :
    ∃ c0 c1 c2 c3 c4 c5 c6 c7 c8 c9 c10 rest,
      curp = c0 :: c1 :: c2 :: c3 :: c4 :: c5 :: c6 :: c7 :: c8 :: c9 :: c10 :: rest := by
  obtain ⟨c0, t0, rfl, h0⟩ := cons_of_succ_le 10 curp h
  obtain ⟨c1, t1, rfl, h1⟩ := cons_of_succ_le 9 t0 h0
  obtain ⟨c2, t2, rfl, h2⟩ := cons_of_succ_le 8 t1 h1
  obtain ⟨c3, t3, rfl, h3⟩ := cons_of_succ_le 7 t2 h2
  obtain ⟨c4, t4, rfl, h4⟩ := cons_of_succ_le 6 t3 h3
  obtain ⟨c5, t5, rfl, h5⟩ := cons_of_succ_le 5 t4 h4
  obtain ⟨c6, t6, rfl, h6⟩ := cons_of_succ_le 4 t5 h5
  obtain ⟨c7, t7, rfl, h7⟩ := cons_of_succ_le 3 t6 h6
  obtain ⟨c8, t8, rfl, h8⟩ := cons_of_succ_le 2 t7 h7
  obtain ⟨c9, t9, rfl, h9⟩ := cons_of_succ_le 1 t8 h8
  obtain ⟨c10, t10, rfl, _⟩ := cons_of_succ_le 0 t9 h9
  exact ⟨c0, c1, c2, c3, c4, c5, c6, c7, c8, c9, c10, t10, rfl⟩

/-- The parser on a code of at least 11 bytes, in closed form. -/
theorem obtenerInformacionCURP_cons (C : Int)
    (c0 c1 c2 c3 c4 c5 c6 c7 c8 c9 c10 : UInt8) (rest : GoString) :
    obtenerInformacionCURP C
        (c0 :: c1 :: c2 :: c3 :: c4 :: c5 :: c6 :: c7 :: c8 :: c9 :: c10 :: rest) =
      .ok (C - birthYearOf C [c4, c5],
        Itoa (birthYearOf C [c4, c5]) ++ [45, c6, c7, 45, c8, c9], genderOf c10) := by
  have h45 : utf8 "-" = [45] := by decide
  have hy : slice (c0 :: c1 :: c2 :: c3 :: c4 :: c5 :: c6 :: c7 :: c8 :: c9 :: c10 :: rest) 4 6
      = .ok [c4, c5] := by
    unfold slice
    rw [if_pos (by simp only [List.length_cons]; omega)]
    rfl
  have hm : slice (c0 :: c1 :: c2 :: c3 :: c4 :: c5 :: c6 :: c7 :: c8 :: c9 :: c10 :: rest) 6 8
      = .ok [c6, c7] := by
    unfold slice
    rw [if_pos (by simp only [List.length_cons]; omega)]
    rfl
  have hd : slice (c0 :: c1 :: c2 :: c3 :: c4 :: c5 :: c6 :: c7 :: c8 :: c9 :: c10 :: rest) 8 10
      = .ok [c8, c9] := by
    unfold slice
    rw [if_pos (by simp only [List.length_cons]; omega)]
    rfl
  have hs : index (c0 :: c1 :: c2 :: c3 :: c4 :: c5 :: c6 :: c7 :: c8 :: c9 :: c10 :: rest) 10
      = .ok c10 := rfl
  unfold obtenerInformacionCURP
  rw [hy, hm, hd, hs, h45]
  simp only [bind, Except.bind, pure, Except.pure, List.append_assoc, List.cons_append,
    List.nil_append]

/-- The parser returns on every code of at least 11 bytes. -/
theorem obtenerInformacionCURP_returns (C : Int) (curp : GoString) (hlen : 11 ≤ curp.length) :
    ∃ age date gender, obtenerInformacionCURP C curp = .ok (age, date, gender) ∧
      gender = genderOf curp[10] := by
  obtain ⟨c0, c1, c2, c3, c4, c5, c6, c7, c8, c9, c10, rest, rfl⟩ := curp_shape curp hlen
  exact ⟨_, _, _, obtenerInformacionCURP_cons C c0 c1 c2 c3 c4 c5 c6 c7 c8 c9 c10 rest, rfl⟩

theorem toNat_ofNat_digit (n : Nat) : (UInt8.ofNat (48 + n % 10)).toNat = 48 + n % 10 := by
  have h : 48 + n % 10 < 256 := by omega
  simp [UInt8.toNat, UInt8.ofNat, Fin.ofNat, Nat.mod_eq_of_lt h]

/-- With enough fuel the digits written by `itoaDigits` denote `n`. -/
theorem itoaDigits_value (fuel : Nat) : ∀ (n : Nat) (acc : GoString), n < 10 ^ fuel →
    (itoaDigits fuel n acc).foldl (fun v b => v * 10 + (b.toNat - 48)) 0 =
      acc.foldl (fun v b => v * 10 + (b.toNat - 48)) n := by
  induction fuel with
  | zero =>
    intro n acc h
    have h0 : n = 0 := by simpa using h
    subst h0
    rfl
  | succ fuel ih =>
    intro n acc h
    unfold itoaDigits
    by_cases h10 : n / 10 = 0
    · have hn : n % 10 = n := by omega
      simp only [h10, if_true, List.foldl_cons, toNat_ofNat_digit]
      congr 1
      omega
    · have hlt : n / 10 < 10 ^ fuel := by
        rw [Nat.div_lt_iff_lt_mul (by decide)]
        rw [pow_succ] at h
        exact h
      simp only [h10, if_false]
      rw [ih (n / 10) _ hlt]
      simp only [List.foldl_cons, toNat_ofNat_digit]
      congr 1
      omega

/-- Every byte written by `itoaDigits` is a decimal digit. -/
theorem itoaDigits_digit (fuel : Nat) : ∀ (n : Nat) (acc : GoString),
    (∀ b ∈ acc, 48 ≤ b.toNat ∧ b.toNat ≤ 57) →
    ∀ b ∈ itoaDigits fuel n acc, 48 ≤ b.toNat ∧ b.toNat ≤ 57 := by
  induction fuel with
  | zero => intro n acc h; exact h
  | succ fuel ih =>
    intro n acc h
    unfold itoaDigits
    have h1 : ∀ b ∈ UInt8.ofNat (48 + n % 10) :: acc, 48 ≤ b.toNat ∧ b.toNat ≤ 57 := by
      intro b hb
      rcases List.mem_cons.mp hb with rfl | hb
      · rw [toNat_ofNat_digit]; omega
      · exact h b hb
    by_cases h10 : n / 10 = 0
    · simpa only [h10, if_true] using h1
    · simpa only [h10, if_false] using ih (n / 10) _ h1

/-- The number of digits written by `itoaDigits`. -/
theorem itoaDigits_length (k : Nat) : ∀ (fuel n : Nat) (acc : GoString),
    k < fuel → 10 ^ k ≤ n → n < 10 ^ (k + 1) →
    (itoaDigits fuel n acc).length = acc.length + k + 1 := by
  induction k with
  | zero =>
    intro fuel n acc hf _ hhi
    obtain ⟨f, rfl⟩ : ∃ f, fuel = f + 1 := ⟨fuel - 1, by omega⟩
    have h10 : n / 10 = 0 := by simp at hhi; omega
    simp [itoaDigits, h10]
  | succ k ih =>
    intro fuel n acc hf hlo hhi
    obtain ⟨f, rfl⟩ : ∃ f, fuel = f + 1 := ⟨fuel - 1, by omega⟩
    have hpos : 0 < 10 ^ k := Nat.pow_pos (by decide)
    have hlo1 : 10 ^ k ≤ n / 10 := by
      rw [Nat.le_div_iff_mul_le (by decide)]
      rw [pow_succ] at hlo
      exact hlo
    have hhi1 : n / 10 < 10 ^ (k + 1) := by
      rw [Nat.div_lt_iff_lt_mul (by decide)]
      rw [pow_succ] at hhi
      exact hhi
    have h10 : n / 10 ≠ 0 := by omega
    unfold itoaDigits
    simp only [h10, if_false]
    rw [ih f (n / 10) _ (by omega) hlo1 hhi1]
    simp only [List.length_cons]
    omega

/-- The text `Itoa` writes for a non-negative value is made of decimal digits
and denotes that value. -/
theorem Itoa_decimal (y : Int) (hy : 0 ≤ y) :
    (decimalValue (Itoa y) : Int) = y ∧ ∀ b ∈ Itoa y, 48 ≤ b.toNat ∧ b.toNat ≤ 57 := by
  have hneg : ¬ y < 0 := by omega
  have hfuel : y.natAbs < 10 ^ (y.natAbs + 1) :=
    lt_of_lt_of_le (Nat.lt_pow_self (by decide) _) (Nat.pow_le_pow_right (by decide) (by omega))
  constructor
  · unfold Itoa decimalValue
    simp only [hneg, if_false]
    rw [itoaDigits_value _ _ _ hfuel]
    simp only [List.foldl_nil]
    omega
  · unfold Itoa
    simp only [hneg, if_false]
    exact itoaDigits_digit _ _ _ (by simp)


theorem wrap64_of_range (x : Int) (h1 : -(2 ^ 63) ≤ x) (h2 : x < 2 ^ 63) : wrap64 x = x := by
  unfold wrap64
  omega

/-! ## The identity-code parser -/

/-- C1, evaluation at the failing input: for the code `ABCD050101H` in the
year 2026 the century test `currentYear-2000 < birthYear` compares 26 with
2005, so the parser falls back to the 1900s and returns age 121, birth date
`1905-01-01` and gender `Hombre`; the derived birth year is 1905, not 2005. -/
theorem obtenerInformacionCURP_2005_read_as_1905 :
    obtenerInformacionCURP 2026 (utf8 "ABCD050101H") =
        .ok (121, utf8 "1905-01-01", utf8 "Hombre") ∧
      birthYearOf 2026 (utf8 "05") = 1905 ∧
      (2000 : Int) + 5 ≤ 2026 := by
  decide

/-- C4: for every code of at least 11 bytes and every current year
`C ≥ 2000`, the parser returns, the returned age is `C` minus the derived
birth year, that birth year is at most `C`, and the age is non-negative. The
year bytes need not be digits. -/
theorem birthYear_le_currentYear (C : Int) (curp : GoString)
    (hlen : 11 ≤ curp.length) (hC : 2000 ≤ C) :
    ∃ age date gender,
      obtenerInformacionCURP C curp = .ok (age, date, gender) ∧
      age = C - birthYearOf C [curp[4], curp[5]] ∧
      birthYearOf C [curp[4], curp[5]] ≤ C ∧
      0 ≤ age := by
  obtain ⟨c0, c1, c2, c3, c4, c5, c6, c7, c8, c9, c10, rest, rfl⟩ := curp_shape curp hlen
  have hb := birthYearOf_le C hC c4 c5
  refine ⟨_, _, _, obtenerInformacionCURP_cons C c0 c1 c2 c3 c4 c5 c6 c7 c8 c9 c10 rest, ?_, ?_, ?_⟩
  · rfl
  · exact hb.2
  · have h2 := hb.2
    omega

theorem birthYear_le_currentYear_witness :
    ∃ age date gender,
      obtenerInformacionCURP 2026 (utf8 "ABCD9X0101H") = .ok (age, date, gender) ∧
      age = 2026 - birthYearOf 2026 [(utf8 "ABCD9X0101H")[4], (utf8 "ABCD9X0101H")[5]] ∧
      birthYearOf 2026 [(utf8 "ABCD9X0101H")[4], (utf8 "ABCD9X0101H")[5]] ≤ 2026 ∧
      0 ≤ age :=
  birthYear_le_currentYear 2026 (utf8 "ABCD9X0101H") (by decide) (by decide)

/-- C5: for every code of at least 11 bytes and every current year the
parser returns a gender that is `Hombre` exactly when byte 10 is `H`, `Mujer`
exactly when it is `M` and `Desconocido` exactly when it is neither; it is
one of these three texts, and a second code (with any current year) that has
the same byte at position 10 gets the same gender. -/
theorem gender_from_byte_10 (C : Int) (curp : GoString) (hlen : 11 ≤ curp.length) :
    ∃ age date gender,
      obtenerInformacionCURP C curp = .ok (age, date, gender) ∧
      (gender = utf8 "Hombre" ↔ curp[10] = 72) ∧
      (gender = utf8 "Mujer" ↔ curp[10] = 77) ∧
      (gender = utf8 "Desconocido" ↔ curp[10] ≠ 72 ∧ curp[10] ≠ 77) ∧
      (gender = utf8 "Hombre" ∨ gender = utf8 "Mujer" ∨ gender = utf8 "Desconocido") ∧
      ∀ (C2 : Int) (curp2 : GoString) (hlen2 : 11 ≤ curp2.length), curp2[10] = curp[10] →
        ∃ age2 date2, obtenerInformacionCURP C2 curp2 = .ok (age2, date2, gender) := by
  obtain ⟨c0, c1, c2, c3, c4, c5, c6, c7, c8, c9, c10, rest, rfl⟩ := curp_shape curp hlen
  have hH : utf8 "Hombre" = [72, 111, 109, 98, 114, 101] := by decide
  have hM : utf8 "Mujer" = [77, 117, 106, 101, 114] := by decide
  have hD : utf8 "Desconocido" = [68, 101, 115, 99, 111, 110, 111, 99, 105, 100, 111] := by
    decide
  refine ⟨_, _, _, obtenerInformacionCURP_cons C c0 c1 c2 c3 c4 c5 c6 c7 c8 c9 c10 rest,
    ?_, ?_, ?_, ?_, ?_⟩
  · show genderOf c10 = _ ↔ c10 = 72
    unfold genderOf
    rw [hH, hM, hD]
    by_cases h1 : c10 = 72
    · simp [h1]
    · by_cases h2 : c10 = 77
      · simp [h2]
      · simp [h1, h2]
  · show genderOf c10 = _ ↔ c10 = 77
    unfold genderOf
    rw [hH, hM, hD]
    by_cases h1 : c10 = 72
    · subst h1; simp
    · by_cases h2 : c10 = 77
      · simp [h2]
      · simp [h1, h2]
  · show genderOf c10 = _ ↔ c10 ≠ 72 ∧ c10 ≠ 77
    unfold genderOf
    rw [hH, hM, hD]
    by_cases h1 : c10 = 72
    · simp [h1]
    · by_cases h2 : c10 = 77
      · simp [h2]
      · simp [h1, h2]
  · show genderOf c10 = _ ∨ genderOf c10 = _ ∨ genderOf c10 = _
    unfold genderOf
    by_cases h1 : c10 = 72
    · simp [h1]
    · by_cases h2 : c10 = 77
      · simp [h2]
      · simp [h1, h2]
  · intro C2 curp2 hlen2 h10
    obtain ⟨d0, d1, d2, d3, d4, d5, d6, d7, d8, d9, d10, rest2, rfl⟩ := curp_shape curp2 hlen2
    have h : d10 = c10 := h10
    subst h
    exact ⟨_, _, obtenerInformacionCURP_cons C2 d0 d1 d2 d3 d4 d5 d6 d7 d8 d9 d10 rest2⟩

theorem gender_from_byte_10_witness :
    ∃ age date gender,
      obtenerInformacionCURP 2026 (utf8 "ABCD990101MDFXYZ01") = .ok (age, date, gender) ∧
      (gender = utf8 "Hombre" ↔ (utf8 "ABCD990101MDFXYZ01")[10] = 72) ∧
      (gender = utf8 "Mujer" ↔ (utf8 "ABCD990101MDFXYZ01")[10] = 77) ∧
      (gender = utf8 "Desconocido" ↔
        (utf8 "ABCD990101MDFXYZ01")[10] ≠ 72 ∧ (utf8 "ABCD990101MDFXYZ01")[10] ≠ 77) ∧
      (gender = utf8 "Hombre" ∨ gender = utf8 "Mujer" ∨ gender = utf8 "Desconocido") ∧
      ∀ (C2 : Int) (curp2 : GoString) (hlen2 : 11 ≤ curp2.length),
        curp2[10] = (utf8 "ABCD990101MDFXYZ01")[10] →
        ∃ age2 date2, obtenerInformacionCURP C2 curp2 = .ok (age2, date2, gender) :=
  gender_from_byte_10 2026 (utf8 "ABCD990101MDFXYZ01") (by decide)


theorem birthYearOf_nonneg (C : Int) (a b : UInt8) : 0 ≤ birthYearOf C [a, b] := by
  rw [birthYearOf_eq]
  by_cases h : 9 < a - 48 ∨ 9 < b - 48
  · simp [h]
  · simp only [h, if_false]
    split_ifs <;> omega

/-- C10: for every code of at least 11 bytes and every current year the
parser returns; the birth date is the decimal rendering of the derived birth
year, a hyphen, bytes 6 and 7 of the code, a hyphen, bytes 8 and 9 of the
code, whatever those bytes are, and the age is the current year minus the
same birth year. Month `13` and day `99` pass through unchanged. -/
theorem birthDate_verbatim (C : Int) (curp : GoString) (hlen : 11 ≤ curp.length) :
    (∃ gender,
      obtenerInformacionCURP C curp =
        .ok (C - birthYearOf C [curp[4], curp[5]],
          Itoa (birthYearOf C [curp[4], curp[5]]) ++
            ([45, curp[6], curp[7], 45, curp[8], curp[9]] : GoString),
          gender)) ∧
    (decimalValue (Itoa (birthYearOf C [curp[4], curp[5]])) : Int) =
      birthYearOf C [curp[4], curp[5]] ∧
    (∀ b ∈ Itoa (birthYearOf C [curp[4], curp[5]]), 48 ≤ b.toNat ∧ b.toNat ≤ 57) ∧
    obtenerInformacionCURP 2026 (utf8 "ABCD991399H") =
      .ok (2026 - 1999, utf8 "1999-13-99", utf8 "Hombre") := by
  obtain ⟨c0, c1, c2, c3, c4, c5, c6, c7, c8, c9, c10, rest, rfl⟩ := curp_shape curp hlen
  have hd := Itoa_decimal _ (birthYearOf_nonneg C c4 c5)
  exact ⟨⟨_, obtenerInformacionCURP_cons C c0 c1 c2 c3 c4 c5 c6 c7 c8 c9 c10 rest⟩, hd.1, hd.2,
    by decide⟩

theorem birthDate_verbatim_witness :
    (∃ gender,
      obtenerInformacionCURP 2026 (utf8 "WXYZ851231M") =
        .ok (2026 - birthYearOf 2026 [(utf8 "WXYZ851231M")[4], (utf8 "WXYZ851231M")[5]],
          Itoa (birthYearOf 2026 [(utf8 "WXYZ851231M")[4], (utf8 "WXYZ851231M")[5]]) ++
            ([45, (utf8 "WXYZ851231M")[6], (utf8 "WXYZ851231M")[7], 45,
              (utf8 "WXYZ851231M")[8], (utf8 "WXYZ851231M")[9]] : GoString),
          gender)) ∧
    (decimalValue
        (Itoa (birthYearOf 2026 [(utf8 "WXYZ851231M")[4], (utf8 "WXYZ851231M")[5]])) : Int) =
      birthYearOf 2026 [(utf8 "WXYZ851231M")[4], (utf8 "WXYZ851231M")[5]] ∧
    (∀ b ∈ Itoa (birthYearOf 2026 [(utf8 "WXYZ851231M")[4], (utf8 "WXYZ851231M")[5]]),
      48 ≤ b.toNat ∧ b.toNat ≤ 57) ∧
    obtenerInformacionCURP 2026 (utf8 "ABCD991399H") =
      .ok (2026 - 1999, utf8 "1999-13-99", utf8 "Hombre") :=
  birthDate_verbatim 2026 (utf8 "WXYZ851231M") (by decide)

/-! ## The identifier generator -/

/-- C9: when the random source returns `r` with `0 ≤ r < 9,000,000,000` for
the argument `max-min+1 = 9,000,000,000`, `generarCodigoAleatorio` returns
`r + 1,000,000,000` (the 64-bit arithmetic does not wrap), a value between
1,000,000,000 and 9,999,999,999 whose decimal rendering has exactly 10
digits; the draws 0 and 8,999,999,999 give the two endpoints. -/
theorem generarCodigoAleatorio_range (intn : Int → Int) (r : Int)
    (hr : intn 9000000000 = r) (h0 : 0 ≤ r) (h1 : r < 9000000000) :
    generarCodigoAleatorio intn = r + 1000000000 ∧
    1000000000 ≤ generarCodigoAleatorio intn ∧
    generarCodigoAleatorio intn ≤ 9999999999 ∧
    (Itoa (generarCodigoAleatorio intn)).length = 10 ∧
    generarCodigoAleatorio (fun _ => 0) = 1000000000 ∧
    generarCodigoAleatorio (fun _ => 8999999999) = 9999999999 := by
  have harg : wrap64 (wrap64 (9999999999 - 1000000000) + 1) = 9000000000 := by decide
  have hval : generarCodigoAleatorio intn = r + 1000000000 := by
    unfold generarCodigoAleatorio
    simp only [harg, hr]
    exact wrap64_of_range _ (by omega) (by omega)
  refine ⟨hval, by omega, by omega, ?_, by decide, by decide⟩
  rw [hval]
  have hneg : ¬ r + 1000000000 < 0 := by omega
  unfold Itoa
  simp only [hneg, if_false]
  rw [itoaDigits_length 9 _ _ _ (by omega) (by omega) (by omega)]
  rfl

theorem generarCodigoAleatorio_range_witness :
    generarCodigoAleatorio (fun _ => 4242424242) = 4242424242 + 1000000000 ∧
    1000000000 ≤ generarCodigoAleatorio (fun _ => 4242424242) ∧
    generarCodigoAleatorio (fun _ => 4242424242) ≤ 9999999999 ∧
    (Itoa (generarCodigoAleatorio (fun _ => 4242424242))).length = 10 ∧
    generarCodigoAleatorio (fun _ => 0) = 1000000000 ∧
    generarCodigoAleatorio (fun _ => 8999999999) = 9999999999 :=
  generarCodigoAleatorio_range (fun _ => 4242424242) 4242424242 rfl (by decide) (by decide)


/-! ## Creation -/

theorem FindOne_of_mem (docs : List Persona) (filter : Filter)
    (h : ∃ q ∈ docs, filter.holds q = true) :
    ∃ q, FindOne docs filter = .ok q ∧ q ∈ docs ∧ filter.holds q = true := by
  unfold FindOne
  cases hf : docs.find? filter.holds with
  | none =>
    obtain ⟨q, hq, hh⟩ := h
    have := List.find?_eq_none.mp hf q hq
    exact absurd hh this
  | some q => exact ⟨q, rfl, List.mem_of_find?_eq_some hf, List.find?_some hf⟩

theorem FindOne_of_not_mem (docs : List Persona) (filter : Filter)
    (h : ∀ q ∈ docs, filter.holds q ≠ true) :
    FindOne docs filter = .error .ErrNoDocuments := by
  unfold FindOne
  rw [List.find?_eq_none.mpr (fun q hq => h q hq)]

/-- C2: when the collection already holds a record whose `curp` equals
`p.CURP`, `guardarPersona` returns the error with the message
`La CURP <curp> ya existe en la base de datos` and leaves the collection as
it was: nothing is inserted. -/
theorem guardarPersona_duplicate (C : Int) (intn : Int → Int) (docs : List Persona)
    (p : Persona) (h : ∃ q ∈ docs, q.CURP = p.CURP) :
    guardarPersona C intn docs p =
      (.ok (some (.errorf
        (utf8 "La CURP " ++ p.CURP ++ utf8 " ya existe en la base de datos"))), docs) := by
  obtain ⟨q, hq, hc⟩ := h
  obtain ⟨q1, hf, _, _⟩ := FindOne_of_mem docs (.curp p.CURP)
    ⟨q, hq, by simp [Filter.holds, hc]⟩
  unfold guardarPersona
  simp only [hf]

theorem guardarPersona_duplicate_witness :
    guardarPersona 2026 (fun _ => 7) [samplePersona "ABCD990101HDFXYZ01"]
        (samplePersona "ABCD990101HDFXYZ01") =
      (.ok (some (.errorf
        (utf8 "La CURP " ++ (samplePersona "ABCD990101HDFXYZ01").CURP ++
          utf8 " ya existe en la base de datos"))),
        [samplePersona "ABCD990101HDFXYZ01"]) :=
  guardarPersona_duplicate 2026 (fun _ => 7) [samplePersona "ABCD990101HDFXYZ01"]
    (samplePersona "ABCD990101HDFXYZ01") ⟨samplePersona "ABCD990101HDFXYZ01", by simp, rfl⟩

/-- C6: on a collection with no record of `p.CURP`, for a code of at least 11
bytes, `guardarPersona` succeeds and appends exactly one record: names and
code are those of `p`, age, birth date and gender are the output of
`obtenerInformacionCURP` on the code and the enrollment number is the output
of the generator. A request that differs from `p` only in the client-sent
age, birth date, gender or enrollment number has the same outcome. -/
theorem guardarPersona_stores_derived (C : Int) (intn : Int → Int) (docs : List Persona)
    (p : Persona) (hnew : ∀ q ∈ docs, q.CURP ≠ p.CURP) (hlen : 11 ≤ p.CURP.length) :
    ∃ edad fecha genero,
      obtenerInformacionCURP C p.CURP = .ok (edad, fecha, genero) ∧
      guardarPersona C intn docs p =
        (.ok none,
          docs ++ [⟨p.Nombres, p.ApellidoPaterno, p.ApellidoMaterno, p.CURP, edad, fecha,
            genero, generarCodigoAleatorio intn⟩]) ∧
      ∀ (edad2 : Int) (fecha2 genero2 : GoString) (matricula2 : Int),
        guardarPersona C intn docs
            ⟨p.Nombres, p.ApellidoPaterno, p.ApellidoMaterno, p.CURP, edad2, fecha2, genero2,
              matricula2⟩ =
          guardarPersona C intn docs p := by
  obtain ⟨age, date, gender, hinfo, -⟩ := obtenerInformacionCURP_returns C p.CURP hlen
  have hfind : FindOne docs (.curp p.CURP) = .error .ErrNoDocuments :=
    FindOne_of_not_mem docs _ (fun q hq => by simpa [Filter.holds] using hnew q hq)
  have hmain : ∀ p2 : Persona, p2.CURP = p.CURP → p2.Nombres = p.Nombres →
      p2.ApellidoPaterno = p.ApellidoPaterno → p2.ApellidoMaterno = p.ApellidoMaterno →
      guardarPersona C intn docs p2 =
        (.ok none,
          docs ++ [⟨p.Nombres, p.ApellidoPaterno, p.ApellidoMaterno, p.CURP, age, date,
            gender, generarCodigoAleatorio intn⟩]) := by
    intro p2 h1 h2 h3 h4
    unfold guardarPersona
    simp only [h1, hfind, hinfo, InsertOne, ne_eq, not_true_eq_false, if_false, h2, h3, h4]
  refine ⟨age, date, gender, hinfo, hmain p rfl rfl rfl rfl, ?_⟩
  intro e2 f2 g2 m2
  rw [hmain p rfl rfl rfl rfl]
  exact hmain _ rfl rfl rfl rfl


theorem guardarPersona_stores_derived_witness :
    ∃ edad fecha genero,
      obtenerInformacionCURP 2026 (samplePersona "ABCD990101HDFXYZ01").CURP =
        .ok (edad, fecha, genero) ∧
      guardarPersona 2026 (fun _ => 7) [samplePersona "WXYZ850101MDFXYZ02"]
          (samplePersona "ABCD990101HDFXYZ01") =
        (.ok none,
          [samplePersona "WXYZ850101MDFXYZ02"] ++
            [⟨(samplePersona "ABCD990101HDFXYZ01").Nombres,
              (samplePersona "ABCD990101HDFXYZ01").ApellidoPaterno,
              (samplePersona "ABCD990101HDFXYZ01").ApellidoMaterno,
              (samplePersona "ABCD990101HDFXYZ01").CURP, edad, fecha, genero,
              generarCodigoAleatorio (fun _ => 7)⟩]) ∧
      ∀ (edad2 : Int) (fecha2 genero2 : GoString) (matricula2 : Int),
        guardarPersona 2026 (fun _ => 7) [samplePersona "WXYZ850101MDFXYZ02"]
            ⟨(samplePersona "ABCD990101HDFXYZ01").Nombres,
              (samplePersona "ABCD990101HDFXYZ01").ApellidoPaterno,
              (samplePersona "ABCD990101HDFXYZ01").ApellidoMaterno,
              (samplePersona "ABCD990101HDFXYZ01").CURP, edad2, fecha2, genero2, matricula2⟩ =
          guardarPersona 2026 (fun _ => 7) [samplePersona "WXYZ850101MDFXYZ02"]
            (samplePersona "ABCD990101HDFXYZ01") :=
  guardarPersona_stores_derived 2026 (fun _ => 7) [samplePersona "WXYZ850101MDFXYZ02"]
    (samplePersona "ABCD990101HDFXYZ01") (by decide) (by decide)

/-- C3, counterexample: on the 8-byte code `ABCD0501` the parser does not
return an error value, it panics at the slice `curp[8:10]`; creation with
that code on an empty collection ends with the same panic and returns no
error value. -/
theorem obtenerInformacionCURP_short_no_error_value :
    obtenerInformacionCURP 2026 (utf8 "ABCD0501") = .error (.sliceBounds 10 8) ∧
    (∀ v, obtenerInformacionCURP 2026 (utf8 "ABCD0501") ≠ .ok v) ∧
    guardarPersona 2026 (fun _ => 7) [] (samplePersona "ABCD0501") =
      (.error (.sliceBounds 10 8), []) ∧
    (∀ e, (guardarPersona 2026 (fun _ => 7) [] (samplePersona "ABCD0501")).1 ≠ .ok e) := by
  have h1 : obtenerInformacionCURP 2026 (utf8 "ABCD0501") = .error (.sliceBounds 10 8) := by
    decide
  have h2 : guardarPersona 2026 (fun _ => 7) [] (samplePersona "ABCD0501") =
      (.error (.sliceBounds 10 8), []) := by
    decide
  refine ⟨h1, ?_, h2, ?_⟩
  · intro v hv
    rw [h1] at hv
    cases hv
  · intro e he
    rw [h2] at he
    cases he

/-- C3, amended: for every code shorter than 11 bytes the parser returns
nothing: it panics, with slice bounds out of range at the first slice the
code is too short for (`[:6]`, `[:8]`, `[:10]`) or with index out of range
at `curp[10]` when the length is 10. Creation with such a code leaves the
collection unchanged, and when no stored record has that code it ends with
the parser's panic. -/
theorem obtenerInformacionCURP_short_panics (C : Int) (curp : GoString)
    (hlen : curp.length < 11) :
    obtenerInformacionCURP C curp =
      .error (if curp.length < 6 then .sliceBounds 6 curp.length
        else if curp.length < 8 then .sliceBounds 8 curp.length
        else if curp.length < 10 then .sliceBounds 10 curp.length
        else .indexOutOfRange 10 curp.length) ∧
    ∀ (intn : Int → Int) (docs : List Persona) (p : Persona), p.CURP = curp →
      (guardarPersona C intn docs p).2 = docs ∧
      ((∀ q ∈ docs, q.CURP ≠ curp) →
        (guardarPersona C intn docs p).1 = (obtenerInformacionCURP C curp).map (fun _ => none) ∧
        ∃ pn, (guardarPersona C intn docs p).1 = .error pn) := by
  have hpanic : obtenerInformacionCURP C curp =
      .error (if curp.length < 6 then .sliceBounds 6 curp.length
        else if curp.length < 8 then .sliceBounds 8 curp.length
        else if curp.length < 10 then .sliceBounds 10 curp.length
        else .indexOutOfRange 10 curp.length) := by
    unfold obtenerInformacionCURP slice index
    by_cases h6 : curp.length < 6
    · have n6 : ¬ 6 ≤ curp.length := by omega
      simp [h6, n6, bind, Except.bind]
    · have p6 : 6 ≤ curp.length := by omega
      by_cases h8 : curp.length < 8
      · have n8 : ¬ 8 ≤ curp.length := by omega
        simp [h6, h8, p6, n8, bind, Except.bind]
      · have p8 : 8 ≤ curp.length := by omega
        by_cases h10 : curp.length < 10
        · have n10 : ¬ 10 ≤ curp.length := by omega
          simp [h6, h8, h10, p6, p8, n10, bind, Except.bind]
        · have p10 : 10 ≤ curp.length := by omega
          have hnone : curp[10]? = none := List.getElem?_eq_none (by omega)
          simp [h6, h8, h10, p6, p8, p10, bind, Except.bind, hnone]
  refine ⟨hpanic, ?_⟩
  intro intn docs p hp
  subst hp
  constructor
  · unfold guardarPersona
    cases hf : FindOne docs (.curp p.CURP) with
    | ok q => simp only [hf]
    | error err =>
      by_cases he : err = .ErrNoDocuments
      · simp [hf, he, hpanic]
      · simp [hf, he]
  · intro hnew
    have hfind : FindOne docs (.curp p.CURP) = .error .ErrNoDocuments :=
      FindOne_of_not_mem docs _ (fun q hq => by simpa [Filter.holds] using hnew q hq)
    have hg : (guardarPersona C intn docs p).1 =
        (obtenerInformacionCURP C p.CURP).map (fun _ => none) := by
      unfold guardarPersona
      simp [hfind, hpanic, Except.map]
    refine ⟨hg, ?_⟩
    rw [hg, hpanic]
    exact ⟨_, rfl⟩

theorem obtenerInformacionCURP_short_panics_witness :
    obtenerInformacionCURP 2026 (utf8 "ABCD050101") =
      .error (if (utf8 "ABCD050101").length < 6 then .sliceBounds 6 (utf8 "ABCD050101").length
        else if (utf8 "ABCD050101").length < 8 then .sliceBounds 8 (utf8 "ABCD050101").length
        else if (utf8 "ABCD050101").length < 10 then
          .sliceBounds 10 (utf8 "ABCD050101").length
        else .indexOutOfRange 10 (utf8 "ABCD050101").length) ∧
    ∀ (intn : Int → Int) (docs : List Persona) (p : Persona), p.CURP = utf8 "ABCD050101" →
      (guardarPersona 2026 intn docs p).2 = docs ∧
      ((∀ q ∈ docs, q.CURP ≠ utf8 "ABCD050101") →
        (guardarPersona 2026 intn docs p).1 =
            (obtenerInformacionCURP 2026 (utf8 "ABCD050101")).map (fun _ => none) ∧
        ∃ pn, (guardarPersona 2026 intn docs p).1 = .error pn) :=
  obtenerInformacionCURP_short_panics 2026 (utf8 "ABCD050101") (by decide)


/-! ## Paging and lookup -/

theorem wrap64_range (x : Int) : -(2 ^ 63) ≤ wrap64 x ∧ wrap64 x < 2 ^ 63 := by
  unfold wrap64
  omega

theorem atoiDigits_lt : ∀ (s : GoString) (n m : Nat), atoiDigits n s = some m →
    m < (n + 1) * 10 ^ s.length := by
  intro s
  induction s with
  | nil =>
    intro n m h
    simp only [atoiDigits, Option.some.injEq] at h
    simp
    omega
  | cons ch rest ih =>
    intro n m h
    unfold atoiDigits at h
    by_cases hd : ch - 48 > 9
    · simp [hd] at h
    · simp only [hd, if_false] at h
      have hle := byte_digit_le _ hd
      have h1 := ih _ _ h
      have hpos : 0 < 10 ^ rest.length := Nat.pow_pos (by decide)
      have h2 : (n * 10 + (ch - 48).toNat + 1) * 10 ^ rest.length ≤
          ((n + 1) * 10) * 10 ^ rest.length := Nat.mul_le_mul_right _ (by omega)
      rw [List.length_cons, pow_succ]
      calc m < (n * 10 + (ch - 48).toNat + 1) * 10 ^ rest.length := h1
        _ ≤ ((n + 1) * 10) * 10 ^ rest.length := h2
        _ = (n + 1) * (10 ^ rest.length * 10) := by ring

theorem atoiDigits_range (s1 : GoString) (hl : s1.length ≤ 18) (neg : Prop) [Decidable neg] :
    -(2 ^ 63) ≤ (match atoiDigits 0 s1 with
        | none => ((0 : Int), some NumError.ErrSyntax)
        | some n => (if neg then -(n : Int) else (n : Int), none)).1 ∧
      (match atoiDigits 0 s1 with
        | none => ((0 : Int), some NumError.ErrSyntax)
        | some n => (if neg then -(n : Int) else (n : Int), none)).1 < 2 ^ 63 := by
  cases hd : atoiDigits 0 s1 with
  | none => simp
  | some n =>
    have hb := atoiDigits_lt _ _ _ hd
    have hp : 10 ^ s1.length ≤ 10 ^ 18 := Nat.pow_le_pow_right (by decide) hl
    have hn : n < 10 ^ 18 := by omega
    have hn2 : (n : Int) < 10 ^ 18 := by exact_mod_cast hn
    simp only
    split_ifs <;> omega

theorem ParseInt_range (s : GoString) :
    -(2 ^ 63) ≤ (ParseInt s).1 ∧ (ParseInt s).1 < 2 ^ 63 := by
  unfold ParseInt
  by_cases h0 : s = []
  · simp [h0]
  · simp only [h0, if_false]
    generalize ParseUint (if s.head? = some 43 ∨ s.head? = some 45 then s.drop 1 else s) = r
    obtain ⟨un, e⟩ := r
    cases e with
    | none =>
      simp only
      split_ifs
      · simp
      · simp
      · exact wrap64_range _
      · exact wrap64_range _
    | some e =>
      cases e with
      | ErrSyntax => simp
      | ErrRange =>
        simp only
        split_ifs
        · simp
        · simp
        · exact wrap64_range _
        · exact wrap64_range _

theorem atoiFast_range (s1 : GoString) (hl : s1.length ≤ 18) (c neg : Prop) [Decidable c]
    [Decidable neg] :
    -(2 ^ 63) ≤ (if c then ((0 : Int), some NumError.ErrSyntax) else
        match atoiDigits 0 s1 with
        | none => ((0 : Int), some NumError.ErrSyntax)
        | some n => (if neg then -(n : Int) else (n : Int), none)).1 ∧
      (if c then ((0 : Int), some NumError.ErrSyntax) else
        match atoiDigits 0 s1 with
        | none => ((0 : Int), some NumError.ErrSyntax)
        | some n => (if neg then -(n : Int) else (n : Int), none)).1 < 2 ^ 63 := by
  by_cases hc : c
  · simp [hc]
  · simp only [hc, if_false]
    exact atoiDigits_range s1 hl neg

/-- The value of `Atoi` is a 64-bit `int`. -/
theorem Atoi_range (s : GoString) : -(2 ^ 63) ≤ (Atoi s).1 ∧ (Atoi s).1 < 2 ^ 63 := by
  unfold Atoi
  by_cases hlen : 0 < s.length ∧ s.length < 19
  · rw [if_pos hlen]
    have hl : (if (decide (s.head? = some 45 ∨ s.head? = some 43)) = true
        then s.drop 1 else s).length ≤ 18 := by
      split_ifs
      · rw [List.length_drop]; omega
      · omega
    exact atoiFast_range _ hl _ _
  · rw [if_neg hlen]
    exact ParseInt_range s


theorem byte_not_digit (b : UInt8) (h : b < 48 ∨ 57 < b) : b - 48 > 9 := by
  cases b with
  | mk v =>
    revert v
    decide

theorem atoiDigits_none : ∀ (s : GoString) (n : Nat), (∃ b ∈ s, b < 48 ∨ 57 < b) →
    atoiDigits n s = none := by
  intro s
  induction s with
  | nil => intro n h; simp at h
  | cons ch rest ih =>
    intro n h
    unfold atoiDigits
    by_cases hd : ch - 48 > 9
    · simp [hd]
    · simp only [hd, if_false]
      apply ih
      obtain ⟨b, hb, hnd⟩ := h
      rcases List.mem_cons.mp hb with rfl | hb
      · exact absurd (byte_not_digit _ hnd) hd
      · exact ⟨b, hb, hnd⟩

/-- A text shorter than 19 bytes that contains a byte other than a decimal
digit or a sign parses to 0. -/
theorem Atoi_not_numeric (s : GoString) (hlen : s.length < 19)
    (h : ∃ b ∈ s, b ≠ 43 ∧ b ≠ 45 ∧ (b < 48 ∨ 57 < b)) : (Atoi s).1 = 0 := by
  obtain ⟨b, hb, h43, h45, hnd⟩ := h
  have hpos : 0 < s.length := List.length_pos_of_mem hb
  have hmem : b ∈ (if (decide (s.head? = some 45 ∨ s.head? = some 43)) = true
      then s.drop 1 else s) := by
    split_ifs with hs
    · cases s with
      | nil => simp at hb
      | cons a t =>
        rcases List.mem_cons.mp hb with rfl | hb
        · simp [h43, h45] at hs
        · simpa using hb
    · exact hb
  have hnone := atoiDigits_none _ 0 ⟨b, hmem, hnd⟩
  unfold Atoi
  rw [if_pos ⟨hpos, hlen⟩]
  simp only [hnone]
  split_ifs <;> rfl

theorem atoiFast_syntax (s1 : GoString) (c neg : Prop) [Decidable c] [Decidable neg]
    (h : (if c then ((0 : Int), some NumError.ErrSyntax) else
        match atoiDigits 0 s1 with
        | none => ((0 : Int), some NumError.ErrSyntax)
        | some n => (if neg then -(n : Int) else (n : Int), none)).2 = some .ErrSyntax) :
    (if c then ((0 : Int), some NumError.ErrSyntax) else
        match atoiDigits 0 s1 with
        | none => ((0 : Int), some NumError.ErrSyntax)
        | some n => (if neg then -(n : Int) else (n : Int), none)).1 = 0 := by
  by_cases hc : c
  · simp [hc]
  · simp only [hc, if_false] at h ⊢
    cases hd : atoiDigits 0 s1 with
    | none => simp
    | some n => simp [hd] at h

theorem ParseInt_syntax (s : GoString) (h : (ParseInt s).2 = some .ErrSyntax) :
    (ParseInt s).1 = 0 := by
  unfold ParseInt at h ⊢
  by_cases h0 : s = []
  · simp [h0]
  · simp only [h0, if_false] at h ⊢
    generalize ParseUint (if s.head? = some 43 ∨ s.head? = some 45 then s.drop 1 else s) = r at h ⊢
    obtain ⟨un, e⟩ := r
    cases e with
    | none =>
      simp only at h ⊢
      split_ifs at h <;> simp at h
    | some e =>
      cases e with
      | ErrSyntax => simp
      | ErrRange =>
        simp only at h ⊢
        split_ifs at h <;> simp at h

/-- A text that `Atoi` rejects with a syntax error yields the value 0. -/
theorem Atoi_syntax (s : GoString) (h : (Atoi s).2 = some .ErrSyntax) : (Atoi s).1 = 0 := by
  unfold Atoi at h ⊢
  by_cases hlen : 0 < s.length ∧ s.length < 19
  · rw [if_pos hlen] at h ⊢
    exact atoiFast_syntax _ _ _ h
  · rw [if_neg hlen] at h ⊢
    exact ParseInt_syntax s h

theorem atoiFast_no_range (s1 : GoString) (c neg : Prop) [Decidable c] [Decidable neg] :
    (if c then ((0 : Int), some NumError.ErrSyntax) else
        match atoiDigits 0 s1 with
        | none => ((0 : Int), some NumError.ErrSyntax)
        | some n => (if neg then -(n : Int) else (n : Int), none)).2 ≠ some .ErrRange := by
  by_cases hc : c
  · simp [hc]
  · simp only [hc, if_false]
    cases hd : atoiDigits 0 s1 with
    | none => simp
    | some n => simp

theorem ParseInt_range_error (s : GoString) (h : (ParseInt s).2 = some .ErrRange) :
    s ≠ [] ∧ ((ParseInt s).1 = 2 ^ 63 - 1 ∨ (ParseInt s).1 = -(2 ^ 63)) := by
  unfold ParseInt at h ⊢
  by_cases h0 : s = []
  · simp [h0] at h
  · refine ⟨h0, ?_⟩
    simp only [h0, if_false] at h ⊢
    generalize ParseUint (if s.head? = some 43 ∨ s.head? = some 45 then s.drop 1 else s) = r at h ⊢
    obtain ⟨un, e⟩ := r
    cases e with
    | none =>
      simp only at h ⊢
      split_ifs at h ⊢ <;> simp at h ⊢
    | some e =>
      cases e with
      | ErrSyntax => simp at h
      | ErrRange =>
        simp only at h ⊢
        split_ifs at h ⊢ <;> simp at h ⊢

/-- A range error of `Atoi` needs a text of at least 19 bytes and yields the
largest or the smallest 64-bit value. -/
theorem Atoi_range_error (s : GoString) (h : (Atoi s).2 = some .ErrRange) :
    19 ≤ s.length ∧ ((Atoi s).1 = 2 ^ 63 - 1 ∨ (Atoi s).1 = -(2 ^ 63)) := by
  unfold Atoi at h ⊢
  by_cases hlen : 0 < s.length ∧ s.length < 19
  · rw [if_pos hlen] at h
    exact absurd h (atoiFast_no_range _ _ _)
  · rw [if_neg hlen] at h ⊢
    obtain ⟨hne, hv⟩ := ParseInt_range_error s h
    have hpos : 0 < s.length := List.length_pos.mpr hne
    exact ⟨by omega, hv⟩

theorem utf8_GET_ne : ¬ (utf8 "GET" ≠ utf8 "GET") := by simp

theorem Find_all (docs : List Persona) (skip limit : Int) (hs : 0 ≤ skip) (hl : 1 ≤ limit) :
    Find docs .all skip limit = .ok ((docs.drop skip.toNat).take limit.toNat) := by
  have h1 : ¬ skip < 0 := by omega
  have h2 : ¬ limit = 0 := by omega
  have h3 : limit.natAbs = limit.toNat := by omega
  have h4 : docs.filter Filter.all.holds = docs :=
    List.filter_eq_self.mpr (fun _ _ => rfl)
  unfold Find
  simp only [h1, h2, h3, h4, if_false]

/-- The paging window of `getPersonasHandler` when the skip fits 64 bits. -/
theorem getPersonasHandler_window (docs : List Persona) (pageQuery perPageQuery : GoString)
    (hfit : ((if (Atoi pageQuery).1 ≥ 1 then (Atoi pageQuery).1 else 1) - 1) *
      (if (Atoi perPageQuery).1 ≥ 1 then (Atoi perPageQuery).1 else 10) < 2 ^ 63) :
    getPersonasHandler (utf8 "GET") docs pageQuery perPageQuery =
      ⟨200, .personas (specPage docs (Atoi pageQuery).1 (Atoi perPageQuery).1)⟩ := by
  have hP := Atoi_range pageQuery
  have hN := Atoi_range perPageQuery
  unfold getPersonasHandler specPage
  rw [if_neg utf8_GET_ne]
  generalize (Atoi pageQuery).1 = P at *
  generalize (Atoi perPageQuery).1 = N at *
  have hp : (if P < 1 then 1 else P) = (if P ≥ 1 then P else 1) := by
    split_ifs <;> omega
  have hn : (if N < 1 then 10 else N) = (if N ≥ 1 then N else 10) := by
    split_ifs <;> omega
  simp only [hp, hn]
  generalize hp' : (if P ≥ 1 then P else 1) = p at *
  generalize hn' : (if N ≥ 1 then N else 10) = n at *
  have hp1 : 1 ≤ p ∧ p < 2 ^ 63 := by
    rw [← hp']; split_ifs <;> omega
  have hn1 : 1 ≤ n := by
    rw [← hn']; split_ifs <;> omega
  have hw1 : wrap64 (p - 1) = p - 1 := wrap64_of_range _ (by omega) (by omega)
  have hnonneg : 0 ≤ (p - 1) * n := Int.mul_nonneg (by omega) (by omega)
  have hw2 : wrap64 ((p - 1) * n) = (p - 1) * n := wrap64_of_range _ (by omega) hfit
  rw [hw1, hw2, Find_all docs _ _ hnonneg hn1]

/-- C7, counterexample: with `page=4611686018427387905` and `perPage=4` the
product `(page-1)*perPage` is `2^64`, which wraps to a skip of 0; on a
collection of one record the handler returns that record, while the page
described by the claim (skip `2^64` records) is empty. And the non-numeric
text `99999999999999999999a` does not parse to 0: its digits leave the
64-bit range before the letter is read, `Atoi` returns `2^63-1` with a range
error, and with `perPage=1` the handler returns an empty page where page 0,
read as page 1, holds the stored record. -/
theorem getPersonasHandler_skip_wraps :
    (Atoi (utf8 "4611686018427387905")).1 = 4611686018427387905 ∧
    (Atoi (utf8 "4")).1 = 4 ∧
    getPersonasHandler (utf8 "GET") [samplePersona "ABCD990101HDFXYZ01"]
        (utf8 "4611686018427387905") (utf8 "4") =
      ⟨200, .personas [samplePersona "ABCD990101HDFXYZ01"]⟩ ∧
    specPage [samplePersona "ABCD990101HDFXYZ01"]
        (Atoi (utf8 "4611686018427387905")).1 (Atoi (utf8 "4")).1 = [] ∧
    getPersonasHandler (utf8 "GET") [samplePersona "ABCD990101HDFXYZ01"]
        (utf8 "4611686018427387905") (utf8 "4") ≠
      ⟨200, .personas (specPage [samplePersona "ABCD990101HDFXYZ01"]
        (Atoi (utf8 "4611686018427387905")).1 (Atoi (utf8 "4")).1)⟩ ∧
    Atoi (utf8 "99999999999999999999a") = (9223372036854775807, some .ErrRange) ∧
    getPersonasHandler (utf8 "GET") [samplePersona "ABCD990101HDFXYZ01"]
        (utf8 "99999999999999999999a") (utf8 "1") = ⟨200, .personas []⟩ ∧
    specPage [samplePersona "ABCD990101HDFXYZ01"] 0 (Atoi (utf8 "1")).1 =
      [samplePersona "ABCD990101HDFXYZ01"] := by
  decide


/-- C7, amended: with `p` the page (1 when the parsed value is below 1) and
`n` the page size (10 when the parsed value is below 1), whenever
`(p-1)*n` fits the 64-bit `int`, i.e. is below `2^63`, `getPersonasHandler`
answers 200 with `take n (drop ((p-1)*n) docs)`. An absent parameter parses
to 0, and so does every text `Atoi` rejects with a syntax error, among them
each text under 19 bytes with a byte that is neither a digit nor a sign; a
text `Atoi` rejects with a range error has at least 19 bytes and parses to
`2^63-1` or `-2^63`. For every page size, page 1 is the first `n` records
and page 2 the next `n`, so together they are the first `2*n` records of the
collection. -/
theorem getPersonasHandler_page (docs : List Persona) (pageQuery perPageQuery : GoString)
    (p n : Int)
    (hp : p = if (Atoi pageQuery).1 ≥ 1 then (Atoi pageQuery).1 else 1)
    (hn : n = if (Atoi perPageQuery).1 ≥ 1 then (Atoi perPageQuery).1 else 10)
    (hfit : (p - 1) * n < 2 ^ 63) :
    getPersonasHandler (utf8 "GET") docs pageQuery perPageQuery =
      ⟨200, .personas ((docs.drop ((p - 1) * n).toNat).take n.toNat)⟩ ∧
    (Atoi []).1 = 0 ∧
    (∀ t : GoString, (Atoi t).2 = some .ErrSyntax → (Atoi t).1 = 0) ∧
    (∀ t : GoString, t.length < 19 →
      (∃ b ∈ t, b ≠ 43 ∧ b ≠ 45 ∧ (b < 48 ∨ 57 < b)) → (Atoi t).1 = 0) ∧
    (∀ t : GoString, (Atoi t).2 = some .ErrRange →
      19 ≤ t.length ∧ ((Atoi t).1 = 2 ^ 63 - 1 ∨ (Atoi t).1 = -(2 ^ 63))) ∧
    ∀ pq1 pq2 : GoString, (Atoi pq1).1 = 1 → (Atoi pq2).1 = 2 →
      getPersonasHandler (utf8 "GET") docs pq1 perPageQuery =
        ⟨200, .personas (docs.take n.toNat)⟩ ∧
      getPersonasHandler (utf8 "GET") docs pq2 perPageQuery =
        ⟨200, .personas ((docs.drop n.toNat).take n.toNat)⟩ ∧
      docs.take n.toNat ++ (docs.drop n.toNat).take n.toNat = docs.take (2 * n.toNat) := by
  have hN := Atoi_range perPageQuery
  have hn1 : 1 ≤ n ∧ n < 2 ^ 63 := by
    rw [hn]; split_ifs <;> omega
  refine ⟨?_, by decide, Atoi_syntax, Atoi_not_numeric, Atoi_range_error, ?_⟩
  · have h := getPersonasHandler_window docs pageQuery perPageQuery (by rw [← hp, ← hn]; exact hfit)
    rw [h]
    unfold specPage
    simp only [← hp, ← hn]
  · intro pq1 pq2 h1 h2
    have w1 := getPersonasHandler_window docs pq1 perPageQuery
      (by rw [h1, ← hn]; norm_num)
    have w2 := getPersonasHandler_window docs pq2 perPageQuery
      (by rw [h2, ← hn]; norm_num; omega)
    refine ⟨?_, ?_, ?_⟩
    · rw [w1]
      unfold specPage
      simp only [h1, ← hn]
      simp
    · rw [w2]
      unfold specPage
      simp only [h2, ← hn]
      simp
    · rw [two_mul, List.take_add]

theorem getPersonasHandler_page_witness :
    getPersonasHandler (utf8 "GET")
        [samplePersona "AAAA990101HDFXYZ01", samplePersona "BBBB990101HDFXYZ01",
          samplePersona "CCCC990101HDFXYZ01"] (utf8 "2") (utf8 "1") =
      ⟨200, .personas (([samplePersona "AAAA990101HDFXYZ01",
        samplePersona "BBBB990101HDFXYZ01",
        samplePersona "CCCC990101HDFXYZ01"].drop ((2 - 1) * 1 : Int).toNat).take
          (1 : Int).toNat)⟩ ∧
    (Atoi []).1 = 0 ∧
    (∀ t : GoString, (Atoi t).2 = some .ErrSyntax → (Atoi t).1 = 0) ∧
    (∀ t : GoString, t.length < 19 →
      (∃ b ∈ t, b ≠ 43 ∧ b ≠ 45 ∧ (b < 48 ∨ 57 < b)) → (Atoi t).1 = 0) ∧
    (∀ t : GoString, (Atoi t).2 = some .ErrRange →
      19 ≤ t.length ∧ ((Atoi t).1 = 2 ^ 63 - 1 ∨ (Atoi t).1 = -(2 ^ 63))) ∧
    ∀ pq1 pq2 : GoString, (Atoi pq1).1 = 1 → (Atoi pq2).1 = 2 →
      getPersonasHandler (utf8 "GET")
          [samplePersona "AAAA990101HDFXYZ01", samplePersona "BBBB990101HDFXYZ01",
            samplePersona "CCCC990101HDFXYZ01"] pq1 (utf8 "1") =
        ⟨200, .personas ([samplePersona "AAAA990101HDFXYZ01",
          samplePersona "BBBB990101HDFXYZ01",
          samplePersona "CCCC990101HDFXYZ01"].take (1 : Int).toNat)⟩ ∧
      getPersonasHandler (utf8 "GET")
          [samplePersona "AAAA990101HDFXYZ01", samplePersona "BBBB990101HDFXYZ01",
            samplePersona "CCCC990101HDFXYZ01"] pq2 (utf8 "1") =
        ⟨200, .personas (([samplePersona "AAAA990101HDFXYZ01",
          samplePersona "BBBB990101HDFXYZ01",
          samplePersona "CCCC990101HDFXYZ01"].drop (1 : Int).toNat).take (1 : Int).toNat)⟩ ∧
      [samplePersona "AAAA990101HDFXYZ01", samplePersona "BBBB990101HDFXYZ01",
          samplePersona "CCCC990101HDFXYZ01"].take (1 : Int).toNat ++
        ([samplePersona "AAAA990101HDFXYZ01", samplePersona "BBBB990101HDFXYZ01",
          samplePersona "CCCC990101HDFXYZ01"].drop (1 : Int).toNat).take (1 : Int).toNat =
        [samplePersona "AAAA990101HDFXYZ01", samplePersona "BBBB990101HDFXYZ01",
          samplePersona "CCCC990101HDFXYZ01"].take (2 * (1 : Int).toNat) :=
  getPersonasHandler_page
    [samplePersona "AAAA990101HDFXYZ01", samplePersona "BBBB990101HDFXYZ01",
      samplePersona "CCCC990101HDFXYZ01"] (utf8 "2") (utf8 "1") 2 1 (by decide) (by decide)
    (by decide)

/-- C8, counterexample: the non-numeric text `99999999999999999999a` as
`matricula` does not fall to the `curp` branch. `Atoi` returns `2^63-1` with
a range error, the handler discards the error and searches by `matricula`:
with the stored code as `curp` it answers 404 although a search by `curp`
finds the record, and with an empty `curp` it answers 404, not 400. -/
theorem getPersonaHandler_overflowing_matricula :
    Atoi (utf8 "99999999999999999999a") = (9223372036854775807, some .ErrRange) ∧
    getPersonaHandler (utf8 "GET") [samplePersona "ABCD990101HDFXYZ01"]
        (utf8 "99999999999999999999a") (utf8 "ABCD990101HDFXYZ01") =
      httpError (utf8 "No se encontró la persona") 404 ∧
    FindOne [samplePersona "ABCD990101HDFXYZ01"] (.curp (utf8 "ABCD990101HDFXYZ01")) =
      .ok (samplePersona "ABCD990101HDFXYZ01") ∧
    getPersonaHandler (utf8 "GET") [samplePersona "ABCD990101HDFXYZ01"]
        (utf8 "99999999999999999999a") (utf8 "ABCD990101HDFXYZ01") ≠
      ⟨200, .persona (samplePersona "ABCD990101HDFXYZ01")⟩ ∧
    getPersonaHandler (utf8 "GET") [samplePersona "ABCD990101HDFXYZ01"]
        (utf8 "99999999999999999999a") [] =
      httpError (utf8 "No se encontró la persona") 404 ∧
    getPersonaHandler (utf8 "GET") [samplePersona "ABCD990101HDFXYZ01"]
        (utf8 "99999999999999999999a") [] ≠
      httpError (utf8 "Debes proporcionar matricula o curp") 400 := by
  decide

/-- C8, amended: on `GET /persona`, with the value `Atoi` returns for
`matricula` (its error is discarded): when the value is non-zero the
collection is searched by `matricula` alone and the `curp` value is not
looked at; when it is zero and `curp` is non-empty the collection is
searched by `curp`; when it is zero and `curp` is empty the answer is 400
whatever the collection holds. A search with no matching record answers 404,
otherwise 200 with a stored record that matches. The value is zero for an
absent text, for `0` and for every text `Atoi` rejects with a syntax error,
among them each text under 19 bytes with a byte that is neither a digit nor
a sign; a text `Atoi` rejects with a range error has at least 19 bytes and
its value is `2^63-1` or `-2^63`, which is non-zero. -/
theorem getPersonaHandler_lookup (docs : List Persona) (matriculaText curpQuery : GoString) :
    ((Atoi matriculaText).1 ≠ 0 →
      ((∀ q ∈ docs, q.Matricula ≠ (Atoi matriculaText).1) →
        getPersonaHandler (utf8 "GET") docs matriculaText curpQuery =
          httpError (utf8 "No se encontró la persona") 404) ∧
      ((∃ q ∈ docs, q.Matricula = (Atoi matriculaText).1) →
        ∃ q ∈ docs, q.Matricula = (Atoi matriculaText).1 ∧
          getPersonaHandler (utf8 "GET") docs matriculaText curpQuery = ⟨200, .persona q⟩) ∧
      ∀ curp2 : GoString,
        getPersonaHandler (utf8 "GET") docs matriculaText curp2 =
          getPersonaHandler (utf8 "GET") docs matriculaText curpQuery) ∧
    ((Atoi matriculaText).1 = 0 → curpQuery ≠ [] →
      ((∀ q ∈ docs, q.CURP ≠ curpQuery) →
        getPersonaHandler (utf8 "GET") docs matriculaText curpQuery =
          httpError (utf8 "No se encontró la persona") 404) ∧
      ((∃ q ∈ docs, q.CURP = curpQuery) →
        ∃ q ∈ docs, q.CURP = curpQuery ∧
          getPersonaHandler (utf8 "GET") docs matriculaText curpQuery = ⟨200, .persona q⟩)) ∧
    ((Atoi matriculaText).1 = 0 → curpQuery = [] →
      ∀ docs2 : List Persona,
        getPersonaHandler (utf8 "GET") docs2 matriculaText curpQuery =
          httpError (utf8 "Debes proporcionar matricula o curp") 400) ∧
    (Atoi []).1 = 0 ∧ (Atoi (utf8 "0")).1 = 0 ∧ (Atoi (utf8 "abc")).1 = 0 ∧
    (∀ t : GoString, (Atoi t).2 = some .ErrSyntax → (Atoi t).1 = 0) ∧
    (∀ t : GoString, t.length < 19 →
      (∃ b ∈ t, b ≠ 43 ∧ b ≠ 45 ∧ (b < 48 ∨ 57 < b)) → (Atoi t).1 = 0) ∧
    (∀ t : GoString, (Atoi t).2 = some .ErrRange →
      19 ≤ t.length ∧ ((Atoi t).1 = 2 ^ 63 - 1 ∨ (Atoi t).1 = -(2 ^ 63)) ∧
        (Atoi t).1 ≠ 0) := by
  have hbody : ∀ (d : List Persona) (c : GoString),
      getPersonaHandler (utf8 "GET") d matriculaText c =
        match personaFilter (Atoi matriculaText).1 c with
        | none => httpError (utf8 "Debes proporcionar matricula o curp") 400
        | some filter =>
          match FindOne d filter with
          | .error err =>
            if err = .ErrNoDocuments then httpError (utf8 "No se encontró la persona") 404
            else httpErrorOf err 500
          | .ok persona => ⟨200, .persona persona⟩ := by
    intro d c
    unfold getPersonaHandler
    rw [if_neg utf8_GET_ne]
  refine ⟨?_, ?_, ?_, by decide, by decide, by decide, Atoi_syntax, Atoi_not_numeric, ?_⟩
  rotate_right
  · intro t ht
    obtain ⟨h19, hv⟩ := Atoi_range_error t ht
    refine ⟨h19, hv, ?_⟩
    rcases hv with hv | hv <;> rw [hv] <;> decide
  · intro hm
    have hf : ∀ c, personaFilter (Atoi matriculaText).1 c =
        some (.matricula (Atoi matriculaText).1) := by
      intro c; simp [personaFilter, hm]
    refine ⟨?_, ?_, ?_⟩
    · intro hno
      have hnf : FindOne docs (.matricula (Atoi matriculaText).1) = .error .ErrNoDocuments :=
        FindOne_of_not_mem docs _ (fun q hq => by simpa [Filter.holds] using hno q hq)
      rw [hbody, hf]
      simp only [hnf, if_true]
    · rintro ⟨q, hq, hqm⟩
      obtain ⟨q1, h1, h2, h3⟩ := FindOne_of_mem docs (.matricula (Atoi matriculaText).1)
        ⟨q, hq, by simp [Filter.holds, hqm]⟩
      refine ⟨q1, h2, by simpa [Filter.holds] using h3, ?_⟩
      rw [hbody, hf]
      simp only [h1]
    · intro c2
      rw [hbody, hbody, hf, hf]
  · intro hm hc
    have hf : personaFilter (Atoi matriculaText).1 curpQuery = some (.curp curpQuery) := by
      simp [personaFilter, hm, hc]
    refine ⟨?_, ?_⟩
    · intro hno
      have hnf : FindOne docs (.curp curpQuery) = .error .ErrNoDocuments :=
        FindOne_of_not_mem docs _ (fun q hq => by simpa [Filter.holds] using hno q hq)
      rw [hbody, hf]
      simp only [hnf, if_true]
    · rintro ⟨q, hq, hqm⟩
      obtain ⟨q1, h1, h2, h3⟩ := FindOne_of_mem docs (.curp curpQuery)
        ⟨q, hq, by simp [Filter.holds, hqm]⟩
      refine ⟨q1, h2, by simpa [Filter.holds] using h3, ?_⟩
      rw [hbody, hf]
      simp only [h1]
  · intro hm hc docs2
    have hf : personaFilter (Atoi matriculaText).1 curpQuery = none := by
      simp [personaFilter, hm, hc]
    rw [hbody, hf]

end PersonaService
